import Mathlib

/-!
Verification of the governance MCP server against its design document.

The TypeScript sources are shallowly embedded: each MongoDB collection the
tools touch becomes a list of documents, each registered tool handler becomes
a pure Lean function from the store (plus its declared inputs and the
behaviour of any external system it contacts) to the resulting store and the
textual tool result. Machine details that the handlers never branch on
(BSON object ids, dates) are carried as opaque values.
-/

namespace Governance

/-! ## Documents of the collections the tools query -/

/-- A document of `sample_mflix.users` as the PII tool projects it:
its `_id` and whether an `email` field exists (and its value). -/
structure UserDoc where
  id : String
  email : Option String
deriving DecidableEq, Repr

/-- A BSON date: its time value (milliseconds since the epoch, what `$lt`
compares) together with the day part of its ISO rendering
(`toISOString().split('T')[0]`), carried as data of the value. -/
structure DateVal where
  ms : Nat
  isoDay : String
deriving DecidableEq, Repr

/-- A document of `sample_airbnb.listingsAndReviews` as projected by the
zombie-assets tool: `_id` and the optional `last_scraped` date. -/
structure ListingDoc where
  id : String
  last_scraped : Option DateVal
deriving DecidableEq, Repr

/-- A document of `sample_mflix.movies` as the unverified-deployments tool
reads it: `_id`, optional `title`, `year`, and the optional
`tomatoes.viewer.numReviews` field. -/
structure MovieDoc where
  id : String
  title : Option String
  year : Int
  viewerNumReviews : Option Int
deriving DecidableEq, Repr

/-- A document of `sample_supplies.sales` as the legacy-config tool reads
it: `_id` and `storeLocation`. -/
structure SaleDoc where
  id : String
  storeLocation : String
deriving DecidableEq, Repr

/-- A document of `sample_analytics.customers` as the orphaned-accounts tool
reads it: `_id`, optional `name`, and the `accounts` array. -/
structure CustomerDoc where
  id : String
  name : Option String
  accounts : List Int
deriving DecidableEq, Repr

/-- A document of the `projects` collection (see `ProjectDocument` in the
server source and the seeding script). -/
structure ProjectDoc where
  project_id : String
  status : String
  has_audit_log : Bool
  status_updated_at : Option Nat
deriving DecidableEq, Repr

/-- A document of the `audit_logs` collection.  The server defines
`getAuditLogsCollection` but no handler ever writes to it, so its documents
stay opaque here. -/
structure AuditDoc where
  detail : String
deriving DecidableEq, Repr

/-- The data-store snapshot: every collection a registered tool touches.
`sample_weatherdata.data` documents are opaque (only their count is used). -/
structure Store where
  users : List UserDoc
  listings : List ListingDoc
  movies : List MovieDoc
  weatherData : List String
  sales : List SaleDoc
  customers : List CustomerDoc
  projects : List ProjectDoc
  audit_logs : List AuditDoc
deriving DecidableEq, Repr

/-- The store with every collection empty. -/
def emptyStore : Store :=
  { users := [], listings := [], movies := [], weatherData := [], sales := []
    customers := [], projects := [], audit_logs := [] }

/-! ## Driver primitives

`find` returns the matching documents in the collection's document order
(the driver applies no sort); `countDocuments` counts them; `updateOne`
patches the first matching document and reports `matchedCount`. -/

def findDocs (p : α → Bool) (docs : List α) : List α := docs.filter p

def countDocuments (docs : List α) : Nat := docs.length

def updateOne (p : α → Bool) (patch : α → α) : List α → List α × Nat
  | [] => ([], 0)
  | d :: ds =>
    if p d then (patch d :: ds, 1)
    else
      let r := updateOne p patch ds
      (d :: r.1, r.2)

/-- A tool handler's response: the single text content block every handler
of this server returns. -/
structure ToolResult where
  text : String
deriving DecidableEq, Repr

/-! ## Detection tool handlers

Each is the body of the registered handler in the server source, with the
store passed explicitly.  All of them only read, so each returns the store
it was given next to its text result. -/

/-- The query of `detect_pii_violations`: users where `email` exists. -/
def usersWithEmail (s : Store) : List UserDoc :=
  findDocs (fun u => u.email.isSome) s.users

/-- The text `detect_pii_violations` renders from its query result. -/
def piiReport (docs : List UserDoc) : ToolResult :=
  if docs.length = 0 then
    ⟨"No PII violations detected in sample_mflix.users."⟩
  else
    ⟨"Documents with PII (email field) in sample_mflix.users:\n"
      ++ String.intercalate "\n" (docs.map (fun u => "• " ++ u.id))⟩

/-- Tool `detect_pii_violations`. -/
def detect_pii_violations (s : Store) : Store × ToolResult :=
  (s, piiReport (usersWithEmail s))

/-- The entity identifiers `detect_pii_violations` flags, in the order it
lists them. -/
def piiFindingIds (s : Store) : List String :=
  (usersWithEmail s).map (fun u => u.id)

/-- The cutoff `new Date('2019-01-01')` of the zombie-assets rule. -/
def zombieCutoff : DateVal := ⟨1546300800000, "2019-01-01"⟩

/-- Tool `detect_zombie_assets`: listings with `last_scraped` strictly
before the cutoff (`$lt` does not match a missing field). -/
def detect_zombie_assets (s : Store) : Store × ToolResult :=
  (s,
    let zombies := findDocs
      (fun l => match l.last_scraped with
        | some d => decide (d.ms < zombieCutoff.ms)
        | none => false) s.listings
    if zombies.length = 0 then
      ⟨"No zombie Airbnb listings detected."⟩
    else
      ⟨"Zombie Airbnb listings (last_scraped < 2019-01-01):\n"
        ++ String.intercalate "\n" (zombies.map (fun l =>
          "• " ++ l.id ++ match l.last_scraped with
            | some d => " (last_scraped: " ++ d.isoDay ++ ")"
            | none => ""))⟩)

/-- Tool `detect_unverified_deployments`: movies with `year > 2015` and
`tomatoes.viewer.numReviews` equal to `0`. -/
def detect_unverified_deployments (s : Store) : Store × ToolResult :=
  (s,
    let movies := findDocs
      (fun m => decide (m.year > 2015) && (m.viewerNumReviews == some 0)) s.movies
    if movies.length = 0 then
      ⟨"No unverified movie deployments detected."⟩
    else
      ⟨"Unverified deployments (movies from >2015 with zero viewer reviews):\n"
        ++ String.intercalate "\n" (movies.map (fun m =>
          "• " ++ m.title.getD m.id))⟩)

/-- The bottleneck branch's text of `detect_performance_bottlenecks`. -/
def bottleneckMsg (n : Nat) : String :=
  "Performance bottleneck detected: sample_weatherdata.data contains "
    ++ toString n ++ " documents which exceeds the 5,000 document threshold."

/-- The no-bottleneck branch's text of `detect_performance_bottlenecks`. -/
def noBottleneckMsg (n : Nat) : String :=
  "No performance bottleneck detected: sample_weatherdata.data contains "
    ++ toString n ++ " documents."

/-- Tool `detect_performance_bottlenecks`: counts `sample_weatherdata.data`
and warns when the count exceeds 5000. -/
def detect_performance_bottlenecks (s : Store) : Store × ToolResult :=
  (s,
    let count := countDocuments s.weatherData
    if count > 5000 then ⟨bottleneckMsg count⟩ else ⟨noBottleneckMsg count⟩)

/-- Tool `detect_legacy_config`: sales whose `storeLocation` is `'Denver'`. -/
def detect_legacy_config (s : Store) : Store × ToolResult :=
  (s,
    let legacySales := findDocs (fun d => d.storeLocation == "Denver") s.sales
    if legacySales.length = 0 then
      ⟨"No legacy configuration entries detected in sample_supplies.sales."⟩
    else
      ⟨"Legacy configuration entries detected (storeLocation 'Denver'):\n"
        ++ String.intercalate "\n" (legacySales.map (fun d => "• " ++ d.id))⟩)

/-- Tool `audit_orphaned_accounts`: customers whose `accounts` array has
size 0. -/
def audit_orphaned_accounts (s : Store) : Store × ToolResult :=
  (s,
    let orphaned := findDocs (fun c => c.accounts.length == 0) s.customers
    if orphaned.length = 0 then
      ⟨"No orphaned customer accounts detected."⟩
    else
      ⟨"Orphaned customer accounts detected (no associated accounts):\n"
        ++ String.intercalate "\n" (orphaned.map (fun c => "• " ++ c.name.getD c.id))⟩)

/-- The query of `detect_sdlc_drift`: projects with `status: "deployed"`
and `has_audit_log: false`. -/
def driftedProjects (s : Store) : List ProjectDoc :=
  findDocs (fun p => p.status == "deployed" && p.has_audit_log == false) s.projects

/-- Tool `detect_sdlc_drift`. -/
def detect_sdlc_drift (s : Store) : Store × ToolResult :=
  (s,
    if (driftedProjects s).length = 0 then
      ⟨"No SDLC drift detected. All deployed projects have audit logs."⟩
    else
      ⟨"Design-Code Drift detected in the following projects:\n"
        ++ String.intercalate "\n" ((driftedProjects s).map (fun p => "• " ++ p.project_id))⟩)

/-- The entity identifiers `detect_sdlc_drift` flags, in the order it lists
them. -/
def driftFindingIds (s : Store) : List String :=
  (driftedProjects s).map (fun p => p.project_id)

/-! ## reconcile_drift -/

/-- The `action` enum of `reconcile_drift`'s input schema. -/
inductive ReconcileAction where
  | update_docs
  | revert_status
deriving DecidableEq, Repr

/-- Tool `reconcile_drift`.  `revert_status` runs `updateOne` on `projects`,
setting `status` to `needs_review` and `status_updated_at` to the current
time `now`; `update_docs` touches nothing. -/
def reconcile_drift (project_id : String) (action : ReconcileAction) (now : Nat)
    (s : Store) : Store × ToolResult :=
  match action with
  | .revert_status =>
    let r := updateOne (fun p => p.project_id == project_id)
      (fun p => { p with status := "needs_review", status_updated_at := some now })
      s.projects
    ({ s with projects := r.1 },
      if r.2 = 0 then
        ⟨"No project found with project_id '" ++ project_id ++ "'."⟩
      else
        ⟨"Project '" ++ project_id ++ "' status reverted to needs_review and timestamp logged."⟩)
  | .update_docs =>
    (s, ⟨"Documentation update requested for project '" ++ project_id ++ "'."⟩)

/-! ## create_jira_ticket -/

/-- The three environment values the Jira tool reads. -/
structure JiraConfig where
  baseUrl : Option String
  email : Option String
  token : Option String
deriving DecidableEq, Repr

/-- JavaScript truthiness of an optional environment string: absent and
empty are both falsy (`!baseUrl || !email || !token`). -/
def jsTruthy : Option String → Bool
  | none => false
  | some v => !(v == "")

/-- The first element of `split('\n')`: the text before the first newline. -/
def jsFirstLine (s : String) : String := (s.splitOn "\n").headD ""

/-- JavaScript `substring(0, n)`: the first `n` characters. -/
def jsTake (n : Nat) (s : String) : String := String.mk (s.data.take n)

/-- The outbound `POST {baseUrl}/rest/api/3/issue` request the handler
builds: the url, the basic-auth identity, and the issue body fields. -/
structure JiraRequest where
  url : String
  authEmail : String
  authToken : String
  projectKey : String
  summary : String
  description : String
  issuetype : String
deriving DecidableEq, Repr

/-- What the `fetch` call does: throw, or return a response with `ok`,
`status`, `statusText`, the result of `response.text()` (`none` when that
call itself throws), whether `response.json()` throws (and with what), and
the optional `key` and `id` fields of the parsed body. -/
structure FetchResponse where
  ok : Bool
  status : Nat
  statusText : String
  textResult : Option String
  jsonError : Option String
  jsonKey : Option String
  jsonId : Option String
deriving DecidableEq, Repr

inductive FetchBehavior where
  | throws (err : String)
  | returns (r : FetchResponse)
deriving DecidableEq, Repr

/-- The text the handler renders from the fetch outcome (the whole fetch is
inside `try`/`catch`, so every outcome becomes a text result). -/
def jiraFetchText (fb : FetchBehavior) : String :=
  match fb with
  | .throws err => "Error creating Jira ticket: " ++ err
  | .returns r =>
    if !r.ok then
      "Failed to create Jira ticket: " ++ toString r.status ++ " "
        ++ r.statusText ++ ". " ++ (r.textResult.getD "")
    else
      match r.jsonError with
      | some err => "Error creating Jira ticket: " ++ err
      | none =>
        let ticketKey := r.jsonKey.getD (r.jsonId.getD "")
        "Jira ticket created successfully"
          ++ (if ticketKey == "" then "" else ": " ++ ticketKey) ++ "."

/-- Tool `create_jira_ticket`.  Returns the store (the handler performs no
database operation, so it passes through unchanged), the list of network
requests issued, and the text result.  With incomplete configuration it
returns before building or sending any request. -/
def create_jira_ticket (cfg : JiraConfig) (project_id issue_description : String)
    (fb : FetchBehavior) (s : Store) : Store × List JiraRequest × ToolResult :=
  if !(jsTruthy cfg.baseUrl && jsTruthy cfg.email && jsTruthy cfg.token) then
    (s, [],
      ⟨"Jira integration is not configured. Ensure JIRA_BASE_URL, JIRA_EMAIL and JIRA_API_TOKEN are set."⟩)
  else
    let summary := jsTake 100 (jsFirstLine issue_description)
    let req : JiraRequest :=
      { url := cfg.baseUrl.getD "" ++ "/rest/api/3/issue"
        authEmail := cfg.email.getD ""
        authToken := cfg.token.getD ""
        projectKey := project_id
        summary := if summary == "" then "Governance issue for " ++ project_id else summary
        description := issue_description
        issuetype := "Task" }
    (s, [req], ⟨jiraFetchText fb⟩)

/-! ## The evaluate boundary

What crosses the tool boundary when the external store can fail: the
detection handlers have no `try`/`catch`, so a rejected query propagates
out of the handler, while `create_jira_ticket` wraps its connector call and
always resolves to a text result. -/

/-- `detect_pii_violations` at the boundary, as a function of its one
query's outcome: an error is rethrown, a result is rendered. -/
def piiToolBoundary (q : Except String (List UserDoc)) : Except String ToolResult :=
  match q with
  | .error e => .error e
  | .ok docs => .ok (piiReport docs)

/-- `create_jira_ticket` at the boundary: every connector behaviour is
caught inside the handler, so it always resolves. -/
def createJiraBoundary (cfg : JiraConfig) (project_id issue_description : String)
    (fb : FetchBehavior) (s : Store) :
    Except String (Store × List JiraRequest × ToolResult) :=
  .ok (create_jira_ticket cfg project_id issue_description fb s)

/-! ## Seed data -/

/-- The `sampleProjects` array of the seeding script. -/
def sampleProjects : List ProjectDoc :=
  [ { project_id := "project-atlas", status := "deployed", has_audit_log := true
      status_updated_at := none }
  , { project_id := "project-delta", status := "deployed", has_audit_log := false
      status_updated_at := none }
  , { project_id := "project-orion", status := "deployed", has_audit_log := false
      status_updated_at := none } ]

/-- The store after the seeding script ran: `projects` holds
`sampleProjects`, `audit_logs` is empty. -/
def seededStore : Store := { emptyStore with projects := sampleProjects }

/-! ## Concrete inputs used by witnesses and counterexamples -/

/-- Concrete input for the C4 witness: only the base url is missing. -/
def missingUrlCfg : JiraConfig := ⟨none, some "dev@example.com", some "token123"⟩

/-- Concrete snapshot for the C6 counterexample: two users with emails,
stored in descending identifier order. -/
def descendingUsersStore : Store :=
  { emptyStore with
    users := [⟨"user-b", some "b@example.com"⟩, ⟨"user-a", some "a@example.com"⟩] }

/-- Concrete complete configuration for the C9 witness. -/
def fullJiraCfg : JiraConfig :=
  ⟨some "https://jira.example.com", some "dev@example.com", some "token123"⟩

/-- Concrete connector behaviour for the C9 witness. -/
def sampleFetch : FetchBehavior :=
  .returns ⟨true, 201, "Created", some "", none, some "GOV-1", none⟩

/-! ## The ApprovalGate state machine

Modelled from the spec: the repository's source files contain no
ApprovalGate implementation (`reconcile_drift` performs its remediation
directly), so the Action lifecycle component is taken from the design
document, sections 3 and 4.3. -/

/-- Modelled from the spec: the `state` enum of an Action,
`{Proposed, Approved, Rejected, Executing, Executed, Failed}`. -/
inductive ActionState where
  | Proposed
  | Approved
  | Rejected
  | Executing
  | Executed
  | Failed
deriving DecidableEq, Repr, Fintype

/-- Modelled from the spec: the transition operations of the ApprovalGate
(`approve`, `reject`, `beginExecution`, and `completeExecution` with a
success or an error outcome). -/
inductive GateOp where
  | approve
  | reject
  | beginExecution
  | completeSuccess
  | completeFailure
deriving DecidableEq, Repr, Fintype

/-- Modelled from the spec: `InvalidTransitionError`, carrying the state the
Action was in and the operation that was attempted. -/
inductive GateError where
  | invalidTransition (src : ActionState) (op : GateOp)
deriving DecidableEq, Repr

deriving instance DecidableEq for Except

/-- Modelled from the spec: one ApprovalGate transition. `approve` and
`reject` are valid only from `Proposed`, `beginExecution` only from
`Approved`, `completeExecution` only from `Executing`; every other attempt
fails with `InvalidTransitionError` and moves nothing. -/
def gateStep : ActionState → GateOp → Except GateError ActionState
  | .Proposed, .approve => .ok .Approved
  | .Proposed, .reject => .ok .Rejected
  | .Approved, .beginExecution => .ok .Executing
  | .Executing, .completeSuccess => .ok .Executed
  | .Executing, .completeFailure => .ok .Failed
  | s, op => .error (.invalidTransition s op)

/-- Modelled from the spec: run a sequence of attempted operations against
one Action.  Returns the final state and the list of states the Action
entered, one per successful transition; a failed operation is surfaced to
its caller and records no transition. -/
def runGate : ActionState → List GateOp → ActionState × List ActionState
  | s, [] => (s, [])
  | s, op :: ops =>
    match gateStep s op with
    | .ok s2 =>
      let r := runGate s2 ops
      (r.1, s2 :: r.2)
    | .error _ => runGate s ops

/-- Every sequence of states an Action can still pass through from a given
state: the possible remainders of the two allowed paths. -/
def gateContinuations : ActionState → List (List ActionState)
  | .Proposed =>
    [[], [.Rejected], [.Approved], [.Approved, .Executing],
     [.Approved, .Executing, .Executed], [.Approved, .Executing, .Failed]]
  | .Approved => [[], [.Executing], [.Executing, .Executed], [.Executing, .Failed]]
  | .Executing => [[], [.Executed], [.Failed]]
  | .Rejected => [[]]
  | .Executed => [[]]
  | .Failed => [[]]

/-- The full sequence of states an Action created in `Proposed` passes
through under a sequence of attempted operations. -/
def observedStates (ops : List GateOp) : List ActionState :=
  ActionState.Proposed :: (runGate ActionState.Proposed ops).2

/-! # Theorems -/

/-- Helper for C1: the recorded trace from any state is one of the allowed
continuations of that state. -/
theorem runGate_trace_mem (ops : List GateOp) :
    ∀ s : ActionState, (runGate s ops).2 ∈ gateContinuations s := by
  induction ops with
  | nil =>
    intro s
    show [] ∈ gateContinuations s
    revert s; decide
  | cons op ops ih =>
    intro s
    have hcons : ∀ a b c, gateStep a b = Except.ok c →
        ∀ t ∈ gateContinuations c, c :: t ∈ gateContinuations a := by decide
    cases hstep : gateStep s op with
    | ok s2 =>
      simp only [runGate, hstep]
      exact hcons s op s2 hstep _ (ih s2)
    | error e =>
      simp only [runGate, hstep]
      exact ih s

/-- C1: whatever operations are attempted on an Action, the sequence of
states it passes through is a prefix of
`Proposed → Approved → Executing → Executed`, of
`Proposed → Approved → Executing → Failed`, or of `Proposed → Rejected`;
and a `reject` followed by an `approve` of the same Action leaves it
`Rejected`, the `approve` failing with `InvalidTransitionError`. -/
theorem action_state_sequences_follow_approval_paths (ops : List GateOp) :
    (observedStates ops <+: [.Proposed, .Approved, .Executing, .Executed] ∨
     observedStates ops <+: [.Proposed, .Approved, .Executing, .Failed] ∨
     observedStates ops <+: [.Proposed, .Rejected]) ∧
    (runGate .Proposed [.reject, .approve]).1 = .Rejected ∧
    gateStep .Rejected .approve = .error (.invalidTransition .Rejected .approve) := by
  refine ⟨?_, by decide, by decide⟩
  have hmem := runGate_trace_mem ops ActionState.Proposed
  unfold observedStates
  revert hmem
  generalize (runGate ActionState.Proposed ops).2 = t
  intro hmem
  simp only [gateContinuations, List.mem_cons, List.not_mem_nil, or_false] at hmem
  rcases hmem with h|h|h|h|h|h
  all_goals subst h
  · exact Or.inl ⟨[.Approved, .Executing, .Executed], rfl⟩
  · exact Or.inr (Or.inr ⟨[], rfl⟩)
  · exact Or.inl ⟨[.Executing, .Executed], rfl⟩
  · exact Or.inl ⟨[.Executed], rfl⟩
  · exact Or.inl ⟨[], rfl⟩
  · exact Or.inr (Or.inl ⟨[], rfl⟩)

/-- C2: `reconcile_drift` with `revert_status` on the seeded store performs
a governance state transition (the project's status changes to
`needs_review`) yet appends nothing to `audit_logs` — no audit record of
the transition exists afterwards. -/
theorem revert_status_transition_writes_no_audit_entry :
    (reconcile_drift "project-delta" ReconcileAction.revert_status 1739000000000 seededStore).1.audit_logs
        = seededStore.audit_logs ∧
    (reconcile_drift "project-delta" ReconcileAction.revert_status 1739000000000 seededStore).1.projects
        ≠ seededStore.projects ∧
    (reconcile_drift "project-delta" ReconcileAction.revert_status 1739000000000 seededStore).2.text
        = "Project 'project-delta' status reverted to needs_review and timestamp logged." := by
  decide

/-- C3: on the seeded projects `{atlas: deployed/audited,
delta: deployed/unaudited, orion: deployed/unaudited}`, `detect_sdlc_drift`
flags exactly `project-delta` and `project-orion`, in ascending identifier
order, and renders them in that order. -/
theorem detect_sdlc_drift_on_seeded_projects :
    driftFindingIds seededStore = ["project-delta", "project-orion"] ∧
    List.Sorted (fun a b : String => a.data < b.data) (driftFindingIds seededStore) ∧
    (detect_sdlc_drift seededStore).2.text
      = "Design-Code Drift detected in the following projects:\n• project-delta\n• project-orion" := by
  decide

/-- C4: with any required Jira configuration value absent, the handler
returns the configuration-error result at once: no network request is
issued and the store — `audit_logs` included — is untouched. -/
theorem create_jira_ticket_unconfigured_no_side_effect (cfg : JiraConfig)
    (pid desc : String) (fb : FetchBehavior) (s : Store)
    (h : cfg.baseUrl = none ∨ cfg.email = none ∨ cfg.token = none) :
    create_jira_ticket cfg pid desc fb s =
      (s, [],
        ⟨"Jira integration is not configured. Ensure JIRA_BASE_URL, JIRA_EMAIL and JIRA_API_TOKEN are set."⟩) := by
  unfold create_jira_ticket
  rcases h with h | h | h <;> rw [h] <;> simp [jsTruthy]

/-- C4 witness: the theorem applied to a concrete unconfigured call. -/
theorem create_jira_ticket_unconfigured_witness :
    create_jira_ticket missingUrlCfg "GOV" "Audit log missing for project-delta"
        (FetchBehavior.throws "ECONNREFUSED") seededStore =
      (seededStore, [],
        ⟨"Jira integration is not configured. Ensure JIRA_BASE_URL, JIRA_EMAIL and JIRA_API_TOKEN are set."⟩) :=
  create_jira_ticket_unconfigured_no_side_effect missingUrlCfg "GOV"
    "Audit log missing for project-delta" (FetchBehavior.throws "ECONNREFUSED")
    seededStore (Or.inl rfl)

/-- C5 counterexample: a detection handler does not return an explicit
outcome for every store behaviour — a failing store query propagates out of
`detect_pii_violations` as the thrown error itself. -/
theorem detection_handler_rethrows_store_failure :
    piiToolBoundary (Except.error "MongoNetworkError: connect ECONNREFUSED")
        = Except.error "MongoNetworkError: connect ECONNREFUSED" ∧
    ¬ ∃ r, piiToolBoundary (Except.error "MongoNetworkError: connect ECONNREFUSED")
        = Except.ok r := by
  refine ⟨rfl, ?_⟩
  rintro ⟨r, hr⟩
  simp [piiToolBoundary] at hr

/-- C5 amended: `create_jira_ticket` resolves to an explicit result for
every connector behaviour, and a detection handler resolves to an explicit
result exactly when its store query succeeds. -/
theorem boundary_outcome_policy_amended (cfg : JiraConfig) (pid desc : String)
    (fb : FetchBehavior) (s : Store) (q : Except String (List UserDoc)) :
    (∃ out, createJiraBoundary cfg pid desc fb s = Except.ok out) ∧
    ((∃ r, piiToolBoundary q = Except.ok r) ↔ ∃ docs, q = Except.ok docs) := by
  refine ⟨⟨_, rfl⟩, ?_⟩
  cases q with
  | error e => simp [piiToolBoundary]
  | ok docs => simp [piiToolBoundary]

/-- C6 counterexample: findings are returned in the store's document order,
which on this snapshot is not ascending by entity identifier. -/
theorem pii_findings_not_sorted_ascending :
    piiFindingIds descendingUsersStore = ["user-b", "user-a"] ∧
    ¬ List.Sorted (fun a b : String => a.data < b.data)
        (piiFindingIds descendingUsersStore) ∧
    (detect_pii_violations descendingUsersStore).2.text
      = "Documents with PII (email field) in sample_mflix.users:\n• user-b\n• user-a" := by
  decide

/-- C6 amended: against a fixed snapshot a detection operation is
deterministic — two invocations return the same result, entities in the
same order — and that order is the snapshot's document order (the flagged
identifiers are an order-preserving sublist of the collection's), not
necessarily ascending. -/
theorem detection_deterministic_snapshot_order (s : Store) :
    detect_pii_violations s = detect_pii_violations s ∧
    detect_sdlc_drift s = detect_sdlc_drift s ∧
    List.Sublist (piiFindingIds s) (s.users.map (fun u => u.id)) ∧
    List.Sublist (driftFindingIds s) (s.projects.map (fun p => p.project_id)) := by
  refine ⟨rfl, rfl, ?_, ?_⟩
  · exact List.Sublist.map _ (List.filter_sublist _)
  · exact List.Sublist.map _ (List.filter_sublist _)

/-- C7: every detection tool is read-only — each returns the store it was
given, every collection unchanged. -/
theorem detection_tools_leave_store_unchanged (s : Store) :
    (detect_pii_violations s).1 = s ∧
    (detect_zombie_assets s).1 = s ∧
    (detect_unverified_deployments s).1 = s ∧
    (detect_performance_bottlenecks s).1 = s ∧
    (detect_legacy_config s).1 = s ∧
    (audit_orphaned_accounts s).1 = s ∧
    (detect_sdlc_drift s).1 = s :=
  ⟨rfl, rfl, rfl, rfl, rfl, rfl, rfl⟩

/-- Helper for C8: the two branch texts are never the same string (their
first characters differ). -/
theorem bottleneckMsg_ne_noBottleneckMsg (n m : Nat) :
    bottleneckMsg n ≠ noBottleneckMsg m := by
  intro h
  have h1 : (bottleneckMsg n).data.head? = some 'P' := rfl
  have h2 : (noBottleneckMsg m).data.head? = some 'N' := rfl
  rw [h] at h1
  rw [h1] at h2
  cases h2

/-- C8: the bottleneck warning is reported exactly when the
`sample_weatherdata.data` count exceeds 5000, the no-bottleneck text is
reported otherwise, and either way the reported message carries the
count. -/
theorem performance_bottleneck_threshold_spec (s : Store) :
    ((detect_performance_bottlenecks s).2.text
        = bottleneckMsg (countDocuments s.weatherData)
      ↔ countDocuments s.weatherData > 5000) ∧
    (countDocuments s.weatherData ≤ 5000 →
      (detect_performance_bottlenecks s).2.text
        = noBottleneckMsg (countDocuments s.weatherData)) ∧
    (∃ a b, (detect_performance_bottlenecks s).2.text
        = a ++ toString (countDocuments s.weatherData) ++ b) := by
  have htext : (detect_performance_bottlenecks s).2.text
      = if countDocuments s.weatherData > 5000
        then bottleneckMsg (countDocuments s.weatherData)
        else noBottleneckMsg (countDocuments s.weatherData) := by
    unfold detect_performance_bottlenecks
    by_cases h : countDocuments s.weatherData > 5000 <;> simp [h]
  rw [htext]
  by_cases h : countDocuments s.weatherData > 5000
  · rw [if_pos h]
    exact ⟨⟨fun _ => h, fun _ => rfl⟩, fun hle => absurd h (by omega),
      ⟨"Performance bottleneck detected: sample_weatherdata.data contains ",
        " documents which exceeds the 5,000 document threshold.", rfl⟩⟩
  · rw [if_neg h]
    exact ⟨⟨fun heq => absurd heq.symm (bottleneckMsg_ne_noBottleneckMsg _ _),
        fun hgt => absurd hgt h⟩, fun _ => rfl,
      ⟨"No performance bottleneck detected: sample_weatherdata.data contains ",
        " documents.", rfl⟩⟩

/-- Helper for C9: the first 100 characters of a string are empty exactly
when the string is. -/
theorem jsTake_eq_empty_iff (s : String) : jsTake 100 s = "" ↔ s = "" := by
  unfold jsTake
  rw [String.ext_iff, String.ext_iff]
  show s.data.take 100 = "".data ↔ s.data = "".data
  constructor
  · intro h
    rcases List.take_eq_nil_iff.mp h with h | h
    · cases h
    · simpa using h
  · intro h
    simp [h]

/-- C9: with complete configuration and a non-empty `issue_description`,
exactly one request is sent, its summary the first 100 characters of the
description's first line — unless that first line is empty (the description
opens with a newline), in which case the summary is
`Governance issue for ` followed by the project id. -/
theorem jira_summary_first_line_truncation (cfg : JiraConfig) (pid desc : String)
    (fb : FetchBehavior) (s : Store)
    (hb : jsTruthy cfg.baseUrl = true) (he : jsTruthy cfg.email = true)
    (ht : jsTruthy cfg.token = true) (hd : desc ≠ "") :
    ∃ req : JiraRequest, (create_jira_ticket cfg pid desc fb s).2.1 = [req] ∧
      (jsFirstLine desc ≠ "" → req.summary = jsTake 100 (jsFirstLine desc)) ∧
      (jsFirstLine desc = "" → req.summary = "Governance issue for " ++ pid) := by
  unfold create_jira_ticket
  rw [hb, he, ht]
  simp only [Bool.and_self, Bool.not_true, Bool.false_eq_true, if_false]
  refine ⟨_, rfl, ?_, ?_⟩
  · intro hne
    have hfalse : (jsTake 100 (jsFirstLine desc) == "") = false := by
      rw [beq_eq_false_iff_ne]
      intro hcontra
      exact hne ((jsTake_eq_empty_iff _).mp hcontra)
    simp [hfalse]
  · intro heq
    rw [heq]
    simp [jsTake]

/-- C9 witness: the theorem applied to a description that opens with a
newline, exercising the fallback summary. -/
theorem jira_summary_fallback_witness :
    ∃ req : JiraRequest,
      (create_jira_ticket fullJiraCfg "GOV" "\nDrift details attached" sampleFetch
          seededStore).2.1 = [req] ∧
      (jsFirstLine "\nDrift details attached" ≠ "" →
        req.summary = jsTake 100 (jsFirstLine "\nDrift details attached")) ∧
      (jsFirstLine "\nDrift details attached" = "" →
        req.summary = "Governance issue for " ++ "GOV") :=
  jira_summary_first_line_truncation fullJiraCfg "GOV" "\nDrift details attached"
    sampleFetch seededStore (by decide) (by decide) (by decide) (by decide)

/-- C10: `reconcile_drift` with action `update_docs` writes to no
collection and always reports that a documentation update was requested,
whether or not the project exists. -/
theorem reconcile_update_docs_writes_nothing (pid : String) (now : Nat) (s : Store) :
    reconcile_drift pid ReconcileAction.update_docs now s
      = (s, ⟨"Documentation update requested for project '" ++ pid ++ "'."⟩) := rfl

end Governance
